import Mathlib

/-!
Shallow embedding of the consent-synchronisation and dual-auth flow of the
consumer health-data portal (React/TypeScript front end).  Pure functions of
the source become Lean functions; the stateful React handlers become explicit
state-passing functions over small state records; every external effect
(REST call, Supabase call, localStorage access, navigation, timers, alerts)
is recorded in an explicit trace of `Op` actions so that properties about
which effects happen, and in which situations, can be stated and proved.
-/

namespace Elroi

/-! ## Data model (src/pages/Consent.tsx `Provider`, `user_provider_consents` row) -/

/-- The three data-sharing permission flags of a provider
(`Provider['permissions']` in Consent.tsx / ProviderAccessModal.tsx). -/
structure Permissions where
  labResults : Bool
  medications : Bool
  fitnessData : Bool
deriving DecidableEq, Repr

/-- `Object.values(permissions)` — the enumeration order of the three
literal keys of the permissions object. -/
def Permissions.values (p : Permissions) : List Bool :=
  [p.labResults, p.medications, p.fitnessData]

/-- `Object.values(newPermissions).some(Boolean)` — true iff any of the
three permission flags is set. -/
def hasAnyPermissions (p : Permissions) : Bool :=
  p.values.any id

/-- The permission keys (`keyof Provider['permissions']`). -/
inductive PermKey where
  | labResults
  | medications
  | fitnessData
deriving DecidableEq, Repr

/-- Reading `permissions[k]`. -/
def Permissions.get (p : Permissions) : PermKey → Bool
  | .labResults => p.labResults
  | .medications => p.medications
  | .fitnessData => p.fitnessData

/-- The object spread `{ ...permissions, [k]: v }`. -/
def Permissions.set (p : Permissions) : PermKey → Bool → Permissions
  | .labResults, v => { p with labResults := v }
  | .medications, v => { p with medications := v }
  | .fitnessData, v => { p with fitnessData := v }

/-- `{ ...provider.permissions, [permission]: !provider.permissions[permission] }` -/
def togglePermission (p : Permissions) (k : PermKey) : Permissions :=
  p.set k (!p.get k)

/-- A row of the `user_provider_consents` table as written by the
synchroniser (`dbPermissions` together with the two key columns). -/
structure ConsentRecord where
  user_id : String
  provider_id : String
  lab_results : Bool
  medications : Bool
  fitness_data : Bool
  approved : Bool
  updated_at : String
deriving DecidableEq, Repr

/-- The `dbPermissions` object built before each write, together with the
key columns `(user_id, provider_id)` it is written under:
`{ lab_results, medications, fitness_data, approved: hasAnyPermissions,
   updated_at: new Date().toISOString() }`. -/
def dbPermissions (userId providerId : String) (p : Permissions) (now : String) :
    ConsentRecord :=
  { user_id := userId
    provider_id := providerId
    lab_results := p.labResults
    medications := p.medications
    fitness_data := p.fitnessData
    approved := hasAnyPermissions p
    updated_at := now }

/-- A provider row as held in the Consent page's `providers` state. -/
structure Provider where
  id : String
  name : String
  logo : String
  dateAdded : String
  accessStatus : String
  permissions : Permissions
deriving DecidableEq, Repr

/-! ## Effect trace -/

/-- A database write against `user_provider_consents`:
`.update` when an existing row for `(user_id, provider_id)` was found,
`.insert` otherwise. -/
inductive DbWrite where
  | update (table : String) (row : ConsentRecord)
  | insert (table : String) (row : ConsentRecord)
deriving DecidableEq, Repr

/-- The consent row carried by a write. -/
def DbWrite.row : DbWrite → ConsentRecord
  | .update _ r => r
  | .insert _ r => r

/-- One observable external effect of a handler. -/
inductive Op where
  | apiGet (endpoint : String)
  | apiPost (endpoint : String)
  | supabaseAuth (call : String)
  | dbSelect (table : String)
  | dbWrite (w : DbWrite)
  | dbDelete (table : String)
  | storageSet (key value : String)
  | storageRemove (key : String)
  | setTimeoutMs (ms : Nat)
  | clearTimer
  | navigate (path : String)
  | alertMsg (msg : String)
deriving DecidableEq, Repr

/-- Whether an effect is a network call (REST request or Supabase
client call). -/
def Op.callsNetwork : Op → Bool
  | .apiGet _ => true
  | .apiPost _ => true
  | .supabaseAuth _ => true
  | .dbSelect _ => true
  | .dbWrite _ => true
  | .dbDelete _ => true
  | _ => false

/-- The consent rows written in a trace. -/
def writtenRows (tr : List Op) : List ConsentRecord :=
  tr.filterMap fun op =>
    match op with
    | .dbWrite w => some w.row
    | _ => none

/-! ## Platform (Supabase) environment

The outcome of the Supabase calls a single read-then-write attempt makes:
the current user, whether the `maybeSingle` select errors, the row it
returns when it does not, and whether the subsequent update/insert
errors. -/

structure PlatformEnv where
  /-- `supabase.auth.getUser()` — the authenticated user's id, if any. -/
  user : Option String
  /-- Whether the `select … maybeSingle()` returns without `queryError`. -/
  queryOk : Bool
  /-- The existing consent row returned by the select (when `queryOk`). -/
  existing : Option ConsentRecord
  /-- Whether the `update`/`insert` returns without error. -/
  writeOk : Bool

/-- The read-then-write block shared by all three consent write sites:
select the existing `(user_id, provider_id)` row with `maybeSingle`, then
update it if found, else insert; any Supabase error is thrown.  Returns
the trace of Supabase effects together with the successful write, or
`.error` when a step threw. -/
def consentUpsert (env : PlatformEnv) (userId providerId : String)
    (p : Permissions) (now : String) : List Op × Except Unit DbWrite :=
  let sel : Op := .dbSelect "user_provider_consents"
  if !env.queryOk then
    ([sel], .error ())
  else
    let row := dbPermissions userId providerId p now
    match env.existing with
    | some _ =>
        if env.writeOk then
          ([sel, .dbWrite (.update "user_provider_consents" row)],
            .ok (.update "user_provider_consents" row))
        else
          ([sel], .error ())
    | none =>
        if env.writeOk then
          ([sel, .dbWrite (.insert "user_provider_consents" row)],
            .ok (.insert "user_provider_consents" row))
        else
          ([sel], .error ())

/-! ## Consent page (src/pages/Consent.tsx) -/

/-- The Consent page's component state. `alerted` records whether the
failure `alert(...)` was shown during the handler. -/
structure ConsentPageState where
  providers : List Provider
  isModalOpen : Bool
  loading : Bool
  alerted : Bool
deriving DecidableEq, Repr

/-- `accessStatus` value derived from a permissions object:
`Object.values(p).some(Boolean) ? 'Granted' : 'Disconnected'`. -/
def accessStatusOf (p : Permissions) : String :=
  if hasAnyPermissions p then "Granted" else "Disconnected"

/-- The `setProviders(prev => prev.map(...))` update applied on a
successful write: the matching provider gets the new permissions and the
recomputed access status. -/
def updateProviderList (providers : List Provider) (providerId : String)
    (newPerms : Permissions) : List Provider :=
  providers.map fun p =>
    if p.id == providerId then
      { p with permissions := newPerms, accessStatus := accessStatusOf newPerms }
    else p

/-- `handlePermissionToggle(providerId, permission)` of the Consent page:
toggle one flag of the named provider, recompute `approved`, write the
row to Supabase (update-or-insert), and update local state on success;
on any thrown error show an alert and leave the provider list unchanged. -/
def handlePermissionToggle (env : PlatformEnv) (now : String)
    (st : ConsentPageState) (providerId : String) (k : PermKey) :
    ConsentPageState × List Op :=
  match st.providers.find? (fun p => p.id == providerId) with
  | none => ({ st with loading := false }, [])
  | some provider =>
      match env.user with
      | none =>
          ({ st with loading := false, alerted := true },
            [.supabaseAuth "getUser",
              .alertMsg "Failed to update permission. Please try again."])
      | some uid =>
          match consentUpsert env uid providerId
              (togglePermission provider.permissions k) now with
          | (tr, .error _) =>
              ({ st with loading := false, alerted := true },
                .supabaseAuth "getUser" :: tr ++
                  [.alertMsg "Failed to update permission. Please try again."])
          | (tr, .ok _) =>
              ({ st with
                  providers := updateProviderList st.providers providerId
                    (togglePermission provider.permissions k)
                  loading := false },
                .supabaseAuth "getUser" :: tr)

/-- `handleUpdatePermissions(providerId, newPermissions)` of the Consent
page: bulk-save a full permissions object for the named provider
(update-or-insert with recomputed `approved`), update local state and
close the modal on success; on any thrown error show an alert. -/
def handleUpdatePermissions (env : PlatformEnv) (now : String)
    (st : ConsentPageState) (providerId : String) (newPerms : Permissions) :
    ConsentPageState × List Op :=
  match env.user with
  | none =>
      ({ st with loading := false, alerted := true },
        [.supabaseAuth "getUser",
          .alertMsg "Failed to update permissions. Please try again."])
  | some uid =>
      match consentUpsert env uid providerId newPerms now with
      | (tr, .error _) =>
          ({ st with loading := false, alerted := true },
            .supabaseAuth "getUser" :: tr ++
              [.alertMsg "Failed to update permissions. Please try again."])
      | (tr, .ok _) =>
          ({ st with
              providers := updateProviderList st.providers providerId newPerms
              isModalOpen := false
              loading := false },
            .supabaseAuth "getUser" :: tr)

/-! ## Provider access modal (src/components/ProviderAccessModal.tsx) -/

/-- The modal's own component state. -/
structure ModalState where
  currentPermissions : Permissions
  error : Option String
  loading : Bool
deriving DecidableEq, Repr

/-- The modal's `handlePermissionToggle(permission)`: flip one flag in the
modal-local `currentPermissions`. -/
def modalPermissionToggle (m : ModalState) (k : PermKey) : ModalState :=
  { m with currentPermissions := togglePermission m.currentPermissions k }

/-- Result of running `handleSaveChanges`. -/
structure SaveChangesResult where
  modal : ModalState
  page : ConsentPageState
  closed : Bool
  trace : List Op
deriving Repr

/-- `handleSaveChanges()` of ProviderAccessModal, with the Consent page's
`handleUpdatePermissions` wired in as the `onUpdatePermissions` callback
(as in Consent.tsx).  First attempts the Supabase read-then-write itself
(environment `env1`); any error there is logged and swallowed by the inner
`catch`, after which the parent callback is invoked (environment `env2`).
On the direct-write success path the parent callback is invoked once and
the modal closes; on the swallowed-failure path (or when no user is
present) the parent callback is the fallback and the modal still closes,
because the callback catches its own errors and never throws. -/
def handleSaveChanges (env1 env2 : PlatformEnv) (now1 now2 : String)
    (m : ModalState) (page : ConsentPageState) (providerId : String) :
    SaveChangesResult :=
  match env1.user with
  | some uid =>
      match consentUpsert env1 uid providerId m.currentPermissions now1 with
      | (tr1, .ok _) =>
          { modal := { m with error := none, loading := false }
            page := (handleUpdatePermissions env2 now2 page providerId
              m.currentPermissions).1
            closed := true
            trace := .supabaseAuth "getUser" :: tr1 ++
              (handleUpdatePermissions env2 now2 page providerId
                m.currentPermissions).2 }
      | (tr1, .error _) =>
          { modal := { m with error := none, loading := false }
            page := (handleUpdatePermissions env2 now2 page providerId
              m.currentPermissions).1
            closed := true
            trace := .supabaseAuth "getUser" :: tr1 ++
              (handleUpdatePermissions env2 now2 page providerId
                m.currentPermissions).2 }
  | none =>
      { modal := { m with error := none, loading := false }
        page := (handleUpdatePermissions env2 now2 page providerId
          m.currentPermissions).1
        closed := true
        trace := .supabaseAuth "getUser" ::
          (handleUpdatePermissions env2 now2 page providerId
            m.currentPermissions).2 }

/-! ## Route guard (src/routes/index.tsx `ProtectedRoute`) -/

inductive RouteDecision where
  | waiting
  | allow
  | redirectLogin
deriving DecidableEq, Repr

/-- `ProtectedRoute`: spinner while either auth facade is loading, then
redirect to `/login` unless a Supabase user is present. -/
def protectedRoute (legacyLoading supabaseLoading : Bool)
    (legacyUser supabaseUser : Option String) : RouteDecision :=
  if legacyLoading || supabaseLoading then .waiting
  else if supabaseUser.isNone then .redirectLogin
  else .allow

/-! ## Legacy auth facade (src/hooks/useAuth.tsx) -/

/-- The persistent key-value storage (`localStorage`), as an association
list from key to value. -/
abbrev Storage := List (String × String)

def storageGet : Storage → String → Option String
  | [], _ => none
  | (k', v) :: t, k => if k' == k then some v else storageGet t k

def storageRemove : Storage → String → Storage
  | [], _ => []
  | (k', v) :: t, k =>
      if k' == k then storageRemove t k else (k', v) :: storageRemove t k

def storageSet (s : Storage) (k v : String) : Storage :=
  (k, v) :: storageRemove s k

/-- A legacy auth facade's UI-bound state. -/
structure LegacyAuthState where
  user : Option String
  loading : Bool
  error : Option String
deriving DecidableEq, Repr

/-- `TIMEOUT_DURATION = 15000` (15 seconds). -/
def TIMEOUT_DURATION : Nat := 15000

structure LoginCreds where
  email : String
  password : String
deriving DecidableEq, Repr

/-- JavaScript `String.prototype.trim`: strip leading and trailing
whitespace. -/
def jsTrim (s : String) : String :=
  String.mk
    (((s.toList.dropWhile fun c => c.isWhitespace).reverse.dropWhile
        fun c => c.isWhitespace).reverse)

/-- The client-side validation at the top of `login`:
`!credentials.email.trim() || !credentials.password.trim()` fails it. -/
def loginValid (c : LoginCreds) : Bool :=
  !(jsTrim c.email == "") && !(jsTrim c.password == "")

/-- The facade state while a validated login request is in flight:
`setLoading(true); setError(null)` have run and the 15 s timer is armed. -/
def loginPending (st : LegacyAuthState) : LegacyAuthState :=
  { st with loading := true, error := none }

/-- The `setTimeout` callback of `login`:
`setLoading(false); setError('Login request timed out. Please try again.')`. -/
def loginTimeoutFire (st : LegacyAuthState) : LegacyAuthState :=
  { st with loading := false
            error := some "Login request timed out. Please try again." }

/-- The run of `login(credentials)` in which the network call is still
pending when the 15 s timer fires: the effects observed up to the timeout
and the facade state the timeout callback leaves behind.  The eventual
outcome of the in-flight request is irrelevant to (and absent from) this
state. -/
def loginTimedOut (c : LoginCreds) (st : LegacyAuthState) (storage : Storage) :
    LegacyAuthState × Storage × List Op :=
  if loginValid c then
    (loginTimeoutFire (loginPending st), storage,
      [.setTimeoutMs TIMEOUT_DURATION, .apiPost "login"])
  else
    ({ st with error := some "Email and password are required", loading := false },
      storage, [])

/-- The run of `login(credentials)` in which the network call settles
before the timer fires.  `outcome` is the result of
`api.post('login', credentials)`: a `(token, user-JSON)` pair or a thrown
error message. -/
def login (c : LoginCreds) (outcome : Except String (String × String))
    (st : LegacyAuthState) (storage : Storage) :
    LegacyAuthState × Storage × List Op :=
  if loginValid c then
    match outcome with
    | .ok (tok, usr) =>
        ({ st with user := some usr, error := some "", loading := false },
          storageSet (storageSet storage "token" tok) "user" usr,
          [.setTimeoutMs TIMEOUT_DURATION, .apiPost "login", .clearTimer,
            .storageSet "token" tok, .storageSet "user" usr, .navigate "/"])
    | .error msg =>
        ({ st with error := some msg, loading := false }, storage,
          [.setTimeoutMs TIMEOUT_DURATION, .apiPost "login", .clearTimer])
  else
    ({ st with error := some "Email and password are required", loading := false },
      storage, [])

/-! ### `register` and its client-side validation -/

structure RegisterCreds where
  email : String
  password : String
  name : String
deriving DecidableEq, Repr

/-- The test `email.match(/^[^\s@]+@[^\s@]+\.[^\s@]+$/)`.  Because the
character class excludes `@`, a match forces the string to contain exactly
one `@` (at position `i ≥ 1`), no whitespace anywhere, and some `.` at a
position `j` with a non-empty `[^\s@]+` run on each side of it after the
`@`, i.e. `i + 2 ≤ j ≤ length - 2`. -/
def matchesEmailRegex (s : String) : Bool :=
  let cs := s.toList
  let n := cs.length
  cs.all (fun c => !c.isWhitespace) &&
  (List.range n).any (fun i =>
    cs.getD i ' ' == '@' &&
    (List.range n).all (fun j => j == i || !(cs.getD j ' ' == '@')) &&
    decide (1 ≤ i) &&
    (List.range n).any (fun j =>
      cs.getD j ' ' == '.' && decide (i + 2 ≤ j) && decide (j + 2 ≤ n)))

/-- The run of `register(credentials)` in which any network call settles
before the timer fires.  The three client-side validations run first, in
source order, each setting its error and returning before any network
call; only when all pass is the 15 s timer armed and
`api.post('register', credentials)` issued.  `networkOk` is whether that
call resolves. -/
def register (c : RegisterCreds) (networkOk : Bool) (st : LegacyAuthState) :
    LegacyAuthState × List Op :=
  if !(matchesEmailRegex c.email) then
    ({ st with error := some "Please enter a valid email address", loading := false }, [])
  else if c.password.length < 8 then
    ({ st with
        error := some "Password must be at least 8 characters long"
        loading := false }, [])
  else if jsTrim c.name == "" then
    ({ st with error := some "Name is required", loading := false }, [])
  else if networkOk then
    ({ st with
        error := some "Registration successful! Please check your email to verify your account."
        loading := false },
      [.setTimeoutMs TIMEOUT_DURATION, .apiPost "register", .clearTimer])
  else
    ({ st with error := some "Registration failed. Please try again.", loading := false },
      [.setTimeoutMs TIMEOUT_DURATION, .apiPost "register", .clearTimer])

/-! ## Platform auth facade (src/hooks/useSupabaseAuth.tsx) -/

/-- The Supabase auth facade's UI-bound state. -/
structure SbAuthState where
  user : Option String
  session : Option String
  loading : Bool
  error : Option String
deriving DecidableEq, Repr

/-- `signIn(email, password)`: authenticate with
`supabase.auth.signInWithPassword`; on error set the error string, on a
session store the access token and navigate to the dashboard; no
client-side timer of any kind is armed.  `outcome` is the call's result:
a thrown/returned error message, or an optional session access token. -/
def supabaseSignIn (outcome : Except String (Option String))
    (st : SbAuthState) (storage : Storage) :
    SbAuthState × Storage × List Op :=
  let st0 : SbAuthState := { st with loading := true, error := none }
  match outcome with
  | .error msg =>
      ({ st0 with error := some msg, loading := false }, storage,
        [.supabaseAuth "signInWithPassword"])
  | .ok none =>
      ({ st0 with loading := false }, storage,
        [.supabaseAuth "signInWithPassword"])
  | .ok (some tok) =>
      ({ st0 with loading := false },
        storageSet storage "supabase_auth_token" tok,
        [.supabaseAuth "signInWithPassword",
          .storageSet "supabase_auth_token" tok, .navigate "/"])

/-! ## Logout paths and the combined application state -/

/-- The pieces of client state the logout flows touch: persistent storage,
the platform client's internal session, and the two facades' states. -/
structure AppState where
  storage : Storage
  platformSession : Option String
  legacy : LegacyAuthState
  sb : SbAuthState
deriving DecidableEq, Repr

/-- `logout` of the legacy facade (useAuth.tsx): fire-and-forget
`api.get('logout')`, remove the `token` and `user` storage keys, clear the
facade's user, navigate to `/login`.  The platform session is not
touched. -/
def legacyLogout (app : AppState) : AppState × List Op :=
  ({ app with
      storage := storageRemove (storageRemove app.storage "token") "user"
      legacy := { user := none, loading := false, error := none } },
    [.apiGet "logout", .storageRemove "token", .storageRemove "user",
      .navigate "/login"])

/-- `signOut` of the platform facade (useSupabaseAuth.tsx):
`supabase.auth.signOut()` clears the platform session (and, through the
`onAuthStateChange` subscription, the facade's session/user), then the
legacy `token` and `user` storage keys are removed and the app navigates
to `/login`. -/
def supabaseSignOut (app : AppState) : AppState × List Op :=
  ({ app with
      storage := storageRemove (storageRemove app.storage "token") "user"
      platformSession := none
      sb := { app.sb with user := none, session := none, loading := false } },
    [.supabaseAuth "signOut", .storageRemove "token", .storageRemove "user",
      .navigate "/login"])

/-- `authService.logout()` (src/services/auth.ts): `api.get('logout')`
then remove the `token` and `user` storage keys.  The platform session is
not touched. -/
def authServiceLogout (app : AppState) : AppState × List Op :=
  ({ app with
      storage := storageRemove (storageRemove app.storage "token") "user" },
    [.apiGet "logout", .storageRemove "token", .storageRemove "user"])

/-- `handleLogout` of the Sidebar: the legacy facade's `logout`, then the
platform facade's `signOut`, then navigate to `/login`. -/
def sidebarHandleLogout (app : AppState) : AppState × List Op :=
  let (app1, tr1) := legacyLogout app
  let (app2, tr2) := supabaseSignOut app1
  (app2, tr1 ++ tr2 ++ [.navigate "/login"])

/-! ## REST response mapping (src/services/api.ts) -/

/-- Outcome of `response.json()` on an error response: the body failed to
parse, or it parsed to an object whose `message` property is the given
optional string. -/
inductive RespBody where
  | unparseable
  | parsed (message : Option String)
deriving DecidableEq, Repr

/-- The typed error thrown for non-2xx responses.  `message` is the
`error.message` value passed to the constructor (`none` when the parsed
body had no `message` property). -/
structure ApiError where
  status : Nat
  message : Option String
deriving DecidableEq, Repr

/-- `Response.ok`: status in the inclusive range 200–299. -/
def respOk (status : Nat) : Bool :=
  decide (200 ≤ status) && decide (status < 300)

/-- `handleResponse`: pass 2xx responses through; otherwise read the body,
substituting `{ message: status === 401 ? 'Invalid credentials' : 'An
error occurred' }` only when `response.json()` rejects, and throw
`ApiError(status, error.message)`. -/
def handleResponse (status : Nat) (body : RespBody) : Except ApiError RespBody :=
  if respOk status then .ok body
  else
    let msg : Option String :=
      match body with
      | .unparseable =>
          some (if status == 401 then "Invalid credentials" else "An error occurred")
      | .parsed m => m
    .error ⟨status, msg⟩

/-! ## `authService.resendVerification` (src/services/auth.ts) -/

structure ResendResult where
  storage : Storage
  threw : Option String
  trace : List Op
deriving Repr

/-- JavaScript `parseInt` on the timestamp strings this code stores
(canonical decimal renderings of `Date.now()`): the leading digit run, or
`none` for `NaN` when there is none. -/
def jsParseInt (s : String) : Option Nat :=
  let digits := s.toList.takeWhile (fun c => c.isDigit)
  if digits.isEmpty then none
  else some (digits.foldl (fun acc c => acc * 10 + (c.toNat - 48)) 0)

/-- The per-email cooldown check: a recorded attempt under
`verification_<email>` less than 60000 ms old blocks the call.
`parseInt` of a non-numeric stored value is `NaN`, and `NaN < 60000` is
false, so such a value does not block. -/
def resendLimited (storage : Storage) (email : String) (now : Nat) : Bool :=
  match storageGet storage ("verification_" ++ email) with
  | none => false
  | some v =>
      match jsParseInt v with
      | none => false
      | some last => decide ((now : Int) - (last : Int) < 60000)

/-- `authService.resendVerification(email)`: throw a rate-limit error
before any network call when a recorded attempt for this email is less
than 60000 ms old; otherwise `api.post('send-Verify-email', {email})` and,
when it resolves, record `Date.now()` under the per-email key.
`networkOk` is whether the POST resolves. -/
def resendVerification (storage : Storage) (email : String) (now : Nat)
    (networkOk : Bool) : ResendResult :=
  let key := "verification_" ++ email
  if resendLimited storage email now then
    { storage := storage
      threw := some "Please wait a minute before requesting another verification email."
      trace := [] }
  else if networkOk then
    { storage := storageSet storage key (toString now)
      threw := none
      trace := [.apiPost "send-Verify-email", .storageSet key (toString now)] }
  else
    { storage := storage
      threw := some "network error"
      trace := [.apiPost "send-Verify-email"] }

/-! ## Helper lemmas -/

theorem writtenRows_nil : writtenRows [] = [] := rfl

theorem writtenRows_cons (op : Op) (tr : List Op) :
    writtenRows (op :: tr) =
      (match op with | .dbWrite w => [w.row] | _ => []) ++ writtenRows tr := by
  cases op <;> rfl

theorem writtenRows_append (t1 t2 : List Op) :
    writtenRows (t1 ++ t2) = writtenRows t1 ++ writtenRows t2 :=
  List.filterMap_append ..

theorem storageGet_remove_self (s : Storage) (k : String) :
    storageGet (storageRemove s k) k = none := by
  induction s with
  | nil => rfl
  | cons e t ih =>
      rcases e with ⟨ek, v⟩
      by_cases h : ek = k
      · simpa [storageRemove, h] using ih
      · simp [storageRemove, storageGet, h, ih]

theorem storageGet_remove_other (s : Storage) (k k' : String) (hne : k ≠ k') :
    storageGet (storageRemove s k') k = storageGet s k := by
  induction s with
  | nil => rfl
  | cons e t ih =>
      rcases e with ⟨ek, v⟩
      by_cases h : ek = k'
      · subst h
        simp [storageRemove, storageGet, Ne.symm hne, ih]
      · by_cases h3 : ek = k
        · subst h3
          simp [storageRemove, storageGet, h, hne]
        · simp [storageRemove, storageGet, h, h3, ih]

theorem dbPermissions_approved (u pid : String) (p : Permissions) (now : String) :
    (dbPermissions u pid p now).approved =
      ((dbPermissions u pid p now).lab_results ||
        (dbPermissions u pid p now).medications ||
        (dbPermissions u pid p now).fitness_data) := by
  cases p with
  | mk a b c => cases a <;> cases b <;> cases c <;> rfl

/-- The write a successful read-then-write performs: an update when the
select found an existing row, an insert otherwise. -/
def upsertWrite : Option ConsentRecord → ConsentRecord → DbWrite
  | some _, r => .update "user_provider_consents" r
  | none, r => .insert "user_provider_consents" r

theorem consentUpsert_ok_cases (env : PlatformEnv) (u pid : String)
    (p : Permissions) (now : String) (hq : env.queryOk = true)
    (hw : env.writeOk = true) :
    consentUpsert env u pid p now =
      ([.dbSelect "user_provider_consents",
        .dbWrite (upsertWrite env.existing (dbPermissions u pid p now))],
        .ok (upsertWrite env.existing (dbPermissions u pid p now))) := by
  cases hex : env.existing <;> simp [consentUpsert, hq, hw, hex, upsertWrite]

theorem upsertWrite_row (ex : Option ConsentRecord) (r : ConsentRecord) :
    (upsertWrite ex r).row = r := by
  cases ex <;> rfl

theorem mem_writtenRows_consentUpsert (env : PlatformEnv) (u pid : String)
    (p : Permissions) (now : String) (r : ConsentRecord)
    (h : r ∈ writtenRows (consentUpsert env u pid p now).1) :
    r = dbPermissions u pid p now := by
  unfold consentUpsert at h
  split at h
  · simp [writtenRows, List.filterMap] at h
  · split at h
    · split at h <;>
        simp_all [writtenRows, List.filterMap, DbWrite.row]
    · split at h <;>
        simp_all [writtenRows, List.filterMap, DbWrite.row]

theorem mem_writtenRows_handlePermissionToggle (env : PlatformEnv)
    (now : String) (st : ConsentPageState) (pid : String) (k : PermKey)
    (r : ConsentRecord)
    (h : r ∈ writtenRows (handlePermissionToggle env now st pid k).2) :
    ∃ u p, r = dbPermissions u pid p now := by
  unfold handlePermissionToggle at h
  split at h
  · simp [writtenRows, List.filterMap] at h
  · rename_i provider hfind
    split at h
    · simp [writtenRows, List.filterMap] at h
    · rename_i uid huser
      split at h <;>
      · rename_i tr e heq
        simp only [writtenRows_cons, writtenRows_append, writtenRows_nil,
          List.nil_append, List.append_nil, List.mem_append,
          List.not_mem_nil, or_false, false_or] at h
        refine ⟨uid, togglePermission provider.permissions k,
          mem_writtenRows_consentUpsert env uid pid _ now r ?_⟩
        have h1 : (consentUpsert env uid pid
            (togglePermission provider.permissions k) now).1 = tr := by
          rw [heq]
        rw [h1]
        simpa using h

theorem mem_writtenRows_handleUpdatePermissions (env : PlatformEnv)
    (now : String) (st : ConsentPageState) (pid : String) (p : Permissions)
    (r : ConsentRecord)
    (h : r ∈ writtenRows (handleUpdatePermissions env now st pid p).2) :
    ∃ u, r = dbPermissions u pid p now := by
  unfold handleUpdatePermissions at h
  split at h
  · simp [writtenRows, List.filterMap] at h
  · rename_i uid _
    split at h <;>
    · rename_i tr e heq
      simp only [writtenRows_cons, writtenRows_append, writtenRows_nil,
        List.nil_append, List.append_nil, List.mem_append,
        List.not_mem_nil, or_false, false_or] at h
      refine ⟨uid, mem_writtenRows_consentUpsert env uid pid p now r ?_⟩
      have h1 : (consentUpsert env uid pid p now).1 = tr := by
        rw [heq]
      rw [h1]
      simpa using h

theorem mem_writtenRows_handleSaveChanges (env1 env2 : PlatformEnv)
    (now1 now2 : String) (m : ModalState) (page : ConsentPageState)
    (pid : String) (r : ConsentRecord)
    (h : r ∈ writtenRows (handleSaveChanges env1 env2 now1 now2 m page pid).trace) :
    (∃ u, r = dbPermissions u pid m.currentPermissions now1) ∨
      (∃ u, r = dbPermissions u pid m.currentPermissions now2) := by
  unfold handleSaveChanges at h
  split at h
  · rename_i uid _
    split at h <;>
    · rename_i tr e heq
      simp only [writtenRows_cons, writtenRows_append, writtenRows_nil,
        List.nil_append, List.append_nil, List.mem_append,
        List.not_mem_nil, or_false, false_or] at h
      rcases h with h | h
      · refine Or.inl ⟨uid, mem_writtenRows_consentUpsert env1 uid pid
          m.currentPermissions now1 r ?_⟩
        have h1 : (consentUpsert env1 uid pid m.currentPermissions now1).1 = tr := by
          rw [heq]
        rw [h1]
        exact h
      · rcases mem_writtenRows_handleUpdatePermissions env2 now2 page pid
          m.currentPermissions r h with ⟨u, hu⟩
        exact Or.inr ⟨u, hu⟩
  · simp only [writtenRows_cons, List.nil_append] at h
    rcases mem_writtenRows_handleUpdatePermissions env2 now2 page pid
      m.currentPermissions r h with ⟨u, hu⟩
    exact Or.inr ⟨u, hu⟩

/-! ## C1: every consent write recomputes `approved` as the OR of the flags -/

/-- C1: whichever synchroniser path writes a consent row — the Consent
page's single-flag toggle, its bulk permission save, or the access modal's
save (insert or update alike) — the written row's `approved` field equals
the logical OR of its three permission flags. -/
theorem consent_writes_approved_or (env env' env1 env2 : PlatformEnv)
    (now now' now1 now2 : String) (st st' page : ConsentPageState)
    (m : ModalState) (pid pid' pid'' : String) (k : PermKey)
    (p : Permissions) (r : ConsentRecord) :
    (r ∈ writtenRows (handlePermissionToggle env now st pid k).2 →
      r.approved = (r.lab_results || r.medications || r.fitness_data)) ∧
    (r ∈ writtenRows (handleUpdatePermissions env' now' st' pid' p).2 →
      r.approved = (r.lab_results || r.medications || r.fitness_data)) ∧
    (r ∈ writtenRows (handleSaveChanges env1 env2 now1 now2 m page pid'').trace →
      r.approved = (r.lab_results || r.medications || r.fitness_data)) := by
  refine ⟨fun h => ?_, fun h => ?_, fun h => ?_⟩
  · rcases mem_writtenRows_handlePermissionToggle env now st pid k r h with ⟨u, pm, rfl⟩
    exact dbPermissions_approved u pid pm now
  · rcases mem_writtenRows_handleUpdatePermissions env' now' st' pid' p r h with ⟨u, rfl⟩
    exact dbPermissions_approved u pid' p now'
  · rcases mem_writtenRows_handleSaveChanges env1 env2 now1 now2 m page pid'' r h with
      ⟨u, rfl⟩ | ⟨u, rfl⟩
    · exact dbPermissions_approved u pid'' m.currentPermissions now1
    · exact dbPermissions_approved u pid'' m.currentPermissions now2

/-- A sample provider with all permission flags off, and the environments
and states used by the concrete witnesses below. -/
def sampleProvider : Provider :=
  ⟨"p1", "P", "", "", "Disconnected", ⟨false, false, false⟩⟩

def samplePage : ConsentPageState := ⟨[sampleProvider], false, true, false⟩

def emptyPage : ConsentPageState := ⟨[], false, true, false⟩

def envOkUser : PlatformEnv := ⟨some "u", true, none, true⟩

def envOkNoUser : PlatformEnv := ⟨none, true, none, true⟩

def sampleModal : ModalState := ⟨⟨false, false, false⟩, none, false⟩

def sampleRow : ConsentRecord := ⟨"u", "p1", true, false, false, true, "t0"⟩

theorem consent_writes_approved_or_witness :
    sampleRow.approved =
      (sampleRow.lab_results || sampleRow.medications || sampleRow.fitness_data) :=
  (consent_writes_approved_or envOkUser envOkNoUser envOkNoUser envOkNoUser
      "t0" "t0" "t0" "t0" samplePage emptyPage emptyPage sampleModal
      "p1" "p1" "p1" .labResults ⟨false, false, false⟩ sampleRow).1 (by decide)

/-! ## C5: the worked example from the spec -/

/-- C5: toggling `labResults` on for provider `p1` whose flags are all
false writes the row `{labResults: true, medications: false,
fitnessData: false, approved: true}` and updates the UI entry
accordingly. -/
theorem setPermission_p1_labResults :
    let prov : Provider :=
      { id := "p1", name := "P", logo := "", dateAdded := "",
        accessStatus := "Disconnected",
        permissions := ⟨false, false, false⟩ }
    let st : ConsentPageState :=
      { providers := [prov], isModalOpen := false, loading := true, alerted := false }
    let env : PlatformEnv :=
      { user := some "u", queryOk := true, existing := none, writeOk := true }
    let out := handlePermissionToggle env "t0" st "p1" .labResults
    out.1.providers.map (·.permissions) = [⟨true, false, false⟩] ∧
    writtenRows out.2 =
      [{ user_id := "u", provider_id := "p1", lab_results := true,
          medications := false, fitness_data := false, approved := true,
          updated_at := "t0" }] := by
  decide

/-! ## C4: toggling a permission twice -/

theorem togglePermission_involutive (p : Permissions) (k : PermKey) :
    togglePermission (togglePermission p k) k = p := by
  cases p with
  | mk a b c =>
      cases k <;>
        simp [togglePermission, Permissions.set, Permissions.get]

theorem find?_updateProviderList (providers : List Provider) (pid : String)
    (newPerms : Permissions) :
    (updateProviderList providers pid newPerms).find? (fun p => p.id == pid) =
      (providers.find? (fun p => p.id == pid)).map
        (fun p => { p with permissions := newPerms
                           accessStatus := accessStatusOf newPerms }) := by
  induction providers with
  | nil => rfl
  | cons q t ih =>
      by_cases h : (q.id == pid) = true
      · have hupd : updateProviderList (q :: t) pid newPerms =
            ({ q with permissions := newPerms
                      accessStatus := accessStatusOf newPerms } ::
              updateProviderList t pid newPerms) := by
          simp only [updateProviderList, List.map_cons]
          rw [if_pos h]
        have hpos1 : List.find? (fun p => p.id == pid)
            ({ q with permissions := newPerms
                      accessStatus := accessStatusOf newPerms } ::
              updateProviderList t pid newPerms) =
            some { q with permissions := newPerms
                          accessStatus := accessStatusOf newPerms } :=
          List.find?_cons_of_pos _ (by simpa using h)
        have hpos2 : List.find? (fun p => p.id == pid) (q :: t) = some q :=
          List.find?_cons_of_pos _ h
        rw [hupd, hpos1, hpos2]
        rfl
      · have hupd : updateProviderList (q :: t) pid newPerms =
            (q :: updateProviderList t pid newPerms) := by
          simp only [updateProviderList, List.map_cons]
          rw [if_neg h]
        have hneg1 : List.find? (fun p => p.id == pid)
            (q :: updateProviderList t pid newPerms) =
            List.find? (fun p => p.id == pid) (updateProviderList t pid newPerms) :=
          List.find?_cons_of_neg _ h
        have hneg2 : List.find? (fun p => p.id == pid) (q :: t) =
            List.find? (fun p => p.id == pid) t :=
          List.find?_cons_of_neg _ h
        rw [hupd, hneg1, hneg2, ih]

theorem handlePermissionToggle_success (env : PlatformEnv) (now : String)
    (st : ConsentPageState) (pid : String) (k : PermKey) (prov : Provider)
    (u : String)
    (hfind : st.providers.find? (fun p => p.id == pid) = some prov)
    (hu : env.user = some u) (hq : env.queryOk = true)
    (hw : env.writeOk = true) :
    handlePermissionToggle env now st pid k =
      ({ st with
          providers := updateProviderList st.providers pid
            (togglePermission prov.permissions k)
          loading := false },
        [.supabaseAuth "getUser", .dbSelect "user_provider_consents",
          .dbWrite (upsertWrite env.existing
            (dbPermissions u pid (togglePermission prov.permissions k) now))]) := by
  unfold handlePermissionToggle
  rw [hfind, hu]
  dsimp only
  rw [consentUpsert_ok_cases env u pid (togglePermission prov.permissions k) now hq hw]

/-- C4 counterexample: with an existing consent row last updated at
`"t0"`, toggling `labResults` twice at time `"t1"` (both writes
succeeding) writes a final row that differs from the original record —
its `updated_at` field is refreshed — so the ConsentRecord does not
return to its original state. -/
theorem toggle_twice_not_identity_cex :
    (writtenRows (handlePermissionToggle
        ⟨some "u", true, some ⟨"u", "p1", true, false, false, true, "t0"⟩, true⟩
        "t1"
        ((handlePermissionToggle
          ⟨some "u", true, some ⟨"u", "p1", true, false, false, true, "t0"⟩, true⟩
          "t1"
          ⟨[⟨"p1", "P", "", "", "Granted", ⟨true, false, false⟩⟩], false, true, false⟩
          "p1" .labResults).1)
        "p1" .labResults).2 =
      [⟨"u", "p1", true, false, false, true, "t1"⟩]) ∧
    (⟨"u", "p1", true, false, false, true, "t1"⟩ : ConsentRecord) ≠
      ⟨"u", "p1", true, false, false, true, "t0"⟩ := by
  decide

/-- C4 (amended): toggling a permission twice in succession (both writes
succeeding) restores the permission flags, the `approved` field and the
UI provider entry to their original values; each toggle writes exactly
one row whose `approved` equals the OR of its three flags; only the
written record's `updated_at` is refreshed rather than restored. -/
theorem toggle_twice_restores (env1 env2 : PlatformEnv) (now1 now2 : String)
    (st : ConsentPageState) (pid : String) (k : PermKey) (prov : Provider)
    (u1 u2 : String)
    (hfind : st.providers.find? (fun p => p.id == pid) = some prov)
    (hstatus : prov.accessStatus = accessStatusOf prov.permissions)
    (hu1 : env1.user = some u1) (hq1 : env1.queryOk = true)
    (hw1 : env1.writeOk = true)
    (hu2 : env2.user = some u2) (hq2 : env2.queryOk = true)
    (hw2 : env2.writeOk = true) :
    writtenRows (handlePermissionToggle env1 now1 st pid k).2 =
      [dbPermissions u1 pid (togglePermission prov.permissions k) now1] ∧
    writtenRows (handlePermissionToggle env2 now2
        (handlePermissionToggle env1 now1 st pid k).1 pid k).2 =
      [dbPermissions u2 pid prov.permissions now2] ∧
    (∀ r ∈ writtenRows (handlePermissionToggle env1 now1 st pid k).2 ++
        writtenRows (handlePermissionToggle env2 now2
          (handlePermissionToggle env1 now1 st pid k).1 pid k).2,
      r.approved = (r.lab_results || r.medications || r.fitness_data)) ∧
    (handlePermissionToggle env2 now2
        (handlePermissionToggle env1 now1 st pid k).1 pid k).1.providers.find?
      (fun p => p.id == pid) = some prov := by
  have h1 := handlePermissionToggle_success env1 now1 st pid k prov u1
    hfind hu1 hq1 hw1
  have hfind1 : (handlePermissionToggle env1 now1 st pid k).1.providers.find?
      (fun p => p.id == pid) =
      some { prov with permissions := togglePermission prov.permissions k
                       accessStatus := accessStatusOf (togglePermission prov.permissions k) } := by
    rw [h1]
    dsimp only
    rw [find?_updateProviderList, hfind]
    rfl
  have h2 := handlePermissionToggle_success env2 now2
    (handlePermissionToggle env1 now1 st pid k).1 pid k
    ({ prov with permissions := togglePermission prov.permissions k
                 accessStatus := accessStatusOf (togglePermission prov.permissions k) })
    u2 hfind1 hu2 hq2 hw2
  have hinv : togglePermission (togglePermission prov.permissions k) k =
      prov.permissions := togglePermission_involutive prov.permissions k
  refine ⟨?_, ?_, ?_, ?_⟩
  · rw [h1]
    simp [writtenRows_cons, writtenRows_nil, upsertWrite_row]
  · rw [h2]
    simp [writtenRows_cons, writtenRows_nil, upsertWrite_row, hinv]
  · intro r hr
    rw [List.mem_append] at hr
    rcases hr with hr | hr
    · rcases mem_writtenRows_handlePermissionToggle env1 now1 st pid k r hr with
        ⟨u, pm, rfl⟩
      exact dbPermissions_approved u pid pm now1
    · rcases mem_writtenRows_handlePermissionToggle env2 now2 _ pid k r hr with
        ⟨u, pm, rfl⟩
      exact dbPermissions_approved u pid pm now2
  · rw [h2]
    rw [find?_updateProviderList, hfind1]
    dsimp only
    rw [hinv, ← hstatus]
    rfl

/-- C4 witness for the amended theorem at concrete inputs. -/
theorem toggle_twice_restores_witness :
    writtenRows (handlePermissionToggle envOkUser "t0" samplePage "p1"
        .labResults).2 =
      [dbPermissions "u" "p1"
        (togglePermission sampleProvider.permissions .labResults) "t0"] :=
  (toggle_twice_restores envOkUser envOkUser "t0" "t1" samplePage "p1"
      .labResults sampleProvider "u" "u" (by decide) (by decide) rfl rfl rfl
      rfl rfl rfl).1

/-! ## C2: modal save fallback -/

/-- Whether a trace contains no legacy REST POST at all. -/
def noLegacyPost (tr : List Op) : Bool :=
  tr.all (fun op => match op with | .apiPost _ => false | _ => true)

theorem noLegacyPost_consentUpsert (env : PlatformEnv) (u pid : String)
    (p : Permissions) (now : String) :
    noLegacyPost (consentUpsert env u pid p now).1 = true := by
  unfold consentUpsert
  split
  · rfl
  · split <;> split <;> rfl

theorem noLegacyPost_handleUpdatePermissions (env : PlatformEnv)
    (now : String) (st : ConsentPageState) (pid : String) (p : Permissions) :
    noLegacyPost (handleUpdatePermissions env now st pid p).2 = true := by
  unfold handleUpdatePermissions
  split
  · rfl
  · rename_i uid huser
    split <;>
    · rename_i tr e heq
      have hcu := noLegacyPost_consentUpsert env uid pid p now
      rw [show (consentUpsert env uid pid p now).1 = tr from by rw [heq]] at hcu
      simp only [noLegacyPost, List.all_cons, List.all_append] at hcu ⊢
      simp [hcu]

/-- C2 counterexample: with the platform write path failing (and the
fallback, which is a second platform write, failing too), the whole save
performs no REST POST of any kind — in particular no settings POST — and
the page's provider entry does not reflect the requested permissions. -/
theorem saveChanges_no_settings_post_cex :
    noLegacyPost (handleSaveChanges ⟨some "u", true, none, false⟩
        ⟨some "u", true, none, false⟩ "t1" "t2"
        ⟨⟨true, true, false⟩, none, false⟩ samplePage "p1").trace = true ∧
    (handleSaveChanges ⟨some "u", true, none, false⟩
        ⟨some "u", true, none, false⟩ "t1" "t2"
        ⟨⟨true, true, false⟩, none, false⟩ samplePage "p1").page.providers.map
      (·.permissions) = [⟨false, false, false⟩] ∧
    (⟨false, false, false⟩ : Permissions) ≠ ⟨true, true, false⟩ := by
  decide

/-- C2 (amended): when the modal's direct platform write path fails, the
error is swallowed (the modal's error state stays null and the modal still
closes), the modal's local toggle state keeps the requested value, and the
fallback is a re-invocation of the page's update handler — a second
platform write, with no REST POST anywhere in the operation — so the
page-level toggle state reflects the requested value only if that second
write succeeds. -/
theorem saveChanges_fallback (env1 env2 : PlatformEnv) (now1 now2 : String)
    (m : ModalState) (page : ConsentPageState) (pid : String) (u1 : String)
    (hu1 : env1.user = some u1)
    (hfail : (consentUpsert env1 u1 pid m.currentPermissions now1).2 = .error ()) :
    (handleSaveChanges env1 env2 now1 now2 m page pid).modal.error = none ∧
    (handleSaveChanges env1 env2 now1 now2 m page pid).modal.currentPermissions =
      m.currentPermissions ∧
    (handleSaveChanges env1 env2 now1 now2 m page pid).closed = true ∧
    noLegacyPost (handleSaveChanges env1 env2 now1 now2 m page pid).trace = true ∧
    (handleSaveChanges env1 env2 now1 now2 m page pid).page =
      (handleUpdatePermissions env2 now2 page pid m.currentPermissions).1 := by
  rcases hcu : consentUpsert env1 u1 pid m.currentPermissions now1 with ⟨tr1, res⟩
  have hres : res = .error () := by
    have := hfail
    rw [hcu] at this
    cases res with
    | error e => rfl
    | ok w => exact absurd this (by simp)
  subst hres
  unfold handleSaveChanges
  rw [hu1]
  dsimp only
  rw [hcu]
  dsimp only
  refine ⟨rfl, rfl, rfl, ?_, rfl⟩
  have h1 := noLegacyPost_consentUpsert env1 u1 pid m.currentPermissions now1
  rw [show (consentUpsert env1 u1 pid m.currentPermissions now1).1 = tr1 from
    by rw [hcu]] at h1
  have h2 := noLegacyPost_handleUpdatePermissions env2 now2 page pid
    m.currentPermissions
  simp only [noLegacyPost, List.all_cons, List.all_append] at h1 h2 ⊢
  simp [h1, h2]

theorem saveChanges_fallback_witness :
    (handleSaveChanges ⟨some "u", true, none, false⟩ envOkUser "t1" "t2"
        sampleModal samplePage "p1").modal.error = none ∧
    (handleSaveChanges ⟨some "u", true, none, false⟩ envOkUser "t1" "t2"
        sampleModal samplePage "p1").modal.currentPermissions =
      sampleModal.currentPermissions ∧
    (handleSaveChanges ⟨some "u", true, none, false⟩ envOkUser "t1" "t2"
        sampleModal samplePage "p1").closed = true ∧
    noLegacyPost (handleSaveChanges ⟨some "u", true, none, false⟩ envOkUser
        "t1" "t2" sampleModal samplePage "p1").trace = true ∧
    (handleSaveChanges ⟨some "u", true, none, false⟩ envOkUser "t1" "t2"
        sampleModal samplePage "p1").page =
      (handleUpdatePermissions envOkUser "t2" samplePage "p1"
        sampleModal.currentPermissions).1 :=
  saveChanges_fallback ⟨some "u", true, none, false⟩ envOkUser "t1" "t2"
    sampleModal samplePage "p1" "u" rfl (by rfl)

/-! ## C6: client-side timeouts -/

/-- Whether a trace arms any client-side timer. -/
def armsTimer (tr : List Op) : Bool :=
  tr.any (fun op => match op with | .setTimeoutMs _ => true | _ => false)

/-- C6 counterexample: the platform facade's `signIn` — a facade operation
that calls the network — arms no client-side timer at all, so it cannot
race a 15000 ms timeout. -/
theorem supabase_signin_no_timeout_cex :
    ((supabaseSignIn (.ok (some "tok")) ⟨none, none, false, none⟩ []).2.2.any
      (·.callsNetwork) = true) ∧
    armsTimer (supabaseSignIn (.ok (some "tok"))
      ⟨none, none, false, none⟩ []).2.2 = false := by
  decide

/-- C6 (amended): the legacy facade's validated `login` arms a fixed
15000 ms timer before its network call; when the request is still pending
as the timer fires, the timeout callback sets the timeout error message
and clears the loading flag — a state independent of the request's
eventual outcome; the platform facade's `signIn`, by contrast, arms no
timer for any outcome. -/
theorem legacy_login_timeout (c : LoginCreds) (st : LegacyAuthState)
    (storage : Storage) (outcome : Except String (String × String))
    (hv : loginValid c = true) :
    (login c outcome st storage).2.2.take 2 =
      [.setTimeoutMs 15000, .apiPost "login"] ∧
    (loginTimedOut c st storage).2.2 =
      [.setTimeoutMs 15000, .apiPost "login"] ∧
    (loginTimedOut c st storage).1.error =
      some "Login request timed out. Please try again." ∧
    (loginTimedOut c st storage).1.loading = false ∧
    (∀ (o : Except String (Option String)) (st' : SbAuthState) (sto : Storage),
      armsTimer (supabaseSignIn o st' sto).2.2 = false) := by
  refine ⟨?_, ?_, ?_, ?_, ?_⟩
  · cases outcome <;> simp [login, hv, TIMEOUT_DURATION]
  · simp [loginTimedOut, hv, TIMEOUT_DURATION]
  · simp [loginTimedOut, hv, loginTimeoutFire, loginPending]
  · simp [loginTimedOut, hv, loginTimeoutFire, loginPending]
  · intro o st' sto
    rcases o with e | s
    · rfl
    · cases s <;> rfl

theorem legacy_login_timeout_witness :
    (loginTimedOut ⟨"a@b.c", "pw"⟩ ⟨none, true, none⟩ []).1.error =
      some "Login request timed out. Please try again." :=
  (legacy_login_timeout ⟨"a@b.c", "pw"⟩ ⟨none, true, none⟩ []
    (.error "never") (by decide)).2.2.1

/-! ## C7: logout -/

/-- C7: the platform facade's `signOut` (the logout path the sidebar runs
last) removes the legacy `token` and `user` storage keys and clears the
platform session, and the same holds for the sidebar's full logout flow;
in the state either leaves, the route guard redirects to login. -/
theorem logout_clears_sessions (app : AppState) :
    (storageGet (supabaseSignOut app).1.storage "token" = none ∧
      storageGet (supabaseSignOut app).1.storage "user" = none ∧
      (supabaseSignOut app).1.platformSession = none) ∧
    (storageGet (sidebarHandleLogout app).1.storage "token" = none ∧
      storageGet (sidebarHandleLogout app).1.storage "user" = none ∧
      (sidebarHandleLogout app).1.platformSession = none ∧
      protectedRoute (sidebarHandleLogout app).1.legacy.loading
        (sidebarHandleLogout app).1.sb.loading
        (sidebarHandleLogout app).1.legacy.user
        (sidebarHandleLogout app).1.sb.user = .redirectLogin) := by
  unfold sidebarHandleLogout legacyLogout supabaseSignOut
  dsimp only
  refine ⟨⟨?_, ?_, rfl⟩, ?_, ?_, rfl, rfl⟩
  · rw [storageGet_remove_other _ _ _ (by decide)]
    exact storageGet_remove_self _ _
  · exact storageGet_remove_self _ _
  · rw [storageGet_remove_other _ _ _ (by decide)]
    exact storageGet_remove_self _ _
  · exact storageGet_remove_self _ _

/-! ## C3: route guard -/

/-- C3: the route guard waits while either facade loads; once neither is
loading it allows navigation exactly when a Supabase user is present and
redirects to login otherwise, and its decision never depends on the legacy
session state. -/
theorem protectedRoute_gating (ll sl : Bool) (lu su : Option String) :
    ((ll || sl) = true → protectedRoute ll sl lu su = .waiting) ∧
    ((ll || sl) = false →
      ((protectedRoute ll sl lu su = .allow ↔ su.isSome = true) ∧
        (su = none → protectedRoute ll sl lu su = .redirectLogin))) ∧
    (∀ lu', protectedRoute ll sl lu su = protectedRoute ll sl lu' su) := by
  cases ll <;> cases sl <;> cases su <;> simp [protectedRoute]

theorem protectedRoute_gating_witness :
    protectedRoute false false (some "legacy-user") none = .redirectLogin :=
  ((protectedRoute_gating false false (some "legacy-user") none).2.1 (by decide)).2 rfl

/-! ## C9: REST error mapping -/

/-- C9 counterexample: a 401 response whose body parses to JSON without a
`message` property yields no message at all (the thrown error's message is
`none`, not the claimed "Invalid credentials"); the default message is
substituted only when the body fails to parse. -/
theorem handleResponse_parsed_no_message_cex :
    handleResponse 401 (.parsed none) = .error ⟨401, none⟩ ∧
    (none : Option String) ≠ some "Invalid credentials" := by
  constructor
  · rfl
  · intro h
    exact Option.noConfusion h

/-- C9 (amended): every non-2xx response throws an `ApiError` carrying the
HTTP status; when the body fails to parse as JSON the message defaults to
"Invalid credentials" exactly for status 401 and "An error occurred"
otherwise; when the body parses, its (possibly absent) `message` property
is used as-is. -/
theorem handleResponse_error_mapping (status : Nat) (body : RespBody)
    (h : respOk status = false) :
    ∃ e : ApiError, handleResponse status body = .error e ∧
      e.status = status ∧
      (body = .unparseable →
        (e.message = some "Invalid credentials" ↔ status = 401) ∧
        (status ≠ 401 → e.message = some "An error occurred")) ∧
      (∀ m, body = .parsed m → e.message = m) := by
  refine ⟨?_, ?_, ?_, ?_, ?_⟩
  · exact ⟨status,
      match body with
      | .unparseable =>
          some (if status == 401 then "Invalid credentials" else "An error occurred")
      | .parsed m => m⟩
  · simp [handleResponse, h]
  · rfl
  · rintro rfl
    constructor
    · by_cases h401 : status = 401 <;> simp [h401]
    · intro h401
      simp [h401]
  · rintro m rfl
    rfl

theorem handleResponse_error_mapping_witness :
    ∃ e : ApiError, handleResponse 404 .unparseable = .error e ∧
      e.status = 404 ∧
      (RespBody.unparseable = .unparseable →
        (e.message = some "Invalid credentials" ↔ 404 = 401) ∧
        (404 ≠ 401 → e.message = some "An error occurred")) ∧
      (∀ m, RespBody.unparseable = .parsed m → e.message = m) :=
  handleResponse_error_mapping 404 .unparseable (by decide)

/-! ## C10: resend-verification rate limiting -/

/-- C10: a resend attempt made less than 60000 ms after the recorded
attempt for the same email throws the rate-limit error before any network
call and leaves the recorded timestamp unchanged; with no recorded attempt
(or one past the cooldown) the POST is made and, when it resolves, the
current timestamp is recorded under the per-email key. -/
theorem resendVerification_cooldown (storage : Storage) (email : String)
    (now : Nat) (networkOk : Bool) :
    (∀ v last, storageGet storage ("verification_" ++ email) = some v →
        jsParseInt v = some last → (now : Int) - (last : Int) < 60000 →
        (resendVerification storage email now networkOk).threw =
          some "Please wait a minute before requesting another verification email." ∧
        (resendVerification storage email now networkOk).trace = [] ∧
        (resendVerification storage email now networkOk).storage = storage) ∧
    ((storageGet storage ("verification_" ++ email) = none ∨
        (∃ v last, storageGet storage ("verification_" ++ email) = some v ∧
          jsParseInt v = some last ∧ 60000 ≤ (now : Int) - (last : Int))) →
      (Op.apiPost "send-Verify-email") ∈
        (resendVerification storage email now networkOk).trace ∧
      (networkOk = true →
        (resendVerification storage email now networkOk).storage =
          storageSet storage ("verification_" ++ email) (toString now) ∧
        (resendVerification storage email now networkOk).threw = none)) := by
  constructor
  · intro v last hv hparse hlt
    have hlim : resendLimited storage email now = true := by
      simp [resendLimited, hv, hparse, hlt]
    simp [resendVerification, hlim]
  · intro hfree
    have hlim : resendLimited storage email now = false := by
      rcases hfree with hnone | ⟨v, last, hv, hparse, hge⟩
      · simp [resendLimited, hnone]
      · simp [resendLimited, hv, hparse]
        omega
    cases networkOk <;> simp [resendVerification, hlim]

theorem resendVerification_cooldown_witness :
    (resendVerification [("verification_a@b.c", "1000")] "a@b.c" 2000 true).threw =
      some "Please wait a minute before requesting another verification email." ∧
    (resendVerification [("verification_a@b.c", "1000")] "a@b.c" 2000 true).trace = [] ∧
    (resendVerification [("verification_a@b.c", "1000")] "a@b.c" 2000 true).storage =
      [("verification_a@b.c", "1000")] :=
  (resendVerification_cooldown [("verification_a@b.c", "1000")] "a@b.c" 2000 true).1
    "1000" 1000 (by decide) (by decide) (by decide)

/-! ## C8: register client-side validation -/

/-- C8: a register call with a malformed email, a password shorter than 8
characters, or a blank name sets a validation error and clears the loading
flag without any network call; the network call happens exactly when all
three validations pass. -/
theorem register_validation (c : RegisterCreds) (networkOk : Bool)
    (st : LegacyAuthState) :
    ((matchesEmailRegex c.email = false ∨ c.password.length < 8 ∨
        jsTrim c.name = "") →
      (register c networkOk st).2 = [] ∧
      (register c networkOk st).1.error.isSome = true ∧
      (register c networkOk st).1.loading = false) ∧
    ((register c networkOk st).2.any (·.callsNetwork) = true ↔
      (matchesEmailRegex c.email = true ∧ 8 ≤ c.password.length ∧
        jsTrim c.name ≠ "")) := by
  constructor
  · intro hbad
    rcases hbad with he | hp | hn
    · simp [register, he]
    · by_cases he : matchesEmailRegex c.email <;> simp [register, he, hp]
    · by_cases he : matchesEmailRegex c.email
      · by_cases hp : c.password.length < 8 <;>
          simp [register, he, hp, hn]
      · simp [register, he]
  · by_cases he : matchesEmailRegex c.email
    · by_cases hp : c.password.length < 8
      · simp [register, he, hp, Op.callsNetwork]
        try omega
      · by_cases hn : jsTrim c.name = ""
        · simp [register, he, hp, hn, Op.callsNetwork]
          try omega
        · cases networkOk <;>
            simp [register, he, hp, hn, Op.callsNetwork] <;> try omega
    · simp [register, he, Op.callsNetwork]

theorem register_validation_witness :
    (register ⟨"notanemail", "12345678", "Ann"⟩ true
        ⟨none, true, none⟩).2 = [] ∧
    (register ⟨"notanemail", "12345678", "Ann"⟩ true
        ⟨none, true, none⟩).1.error.isSome = true ∧
    (register ⟨"notanemail", "12345678", "Ann"⟩ true
        ⟨none, true, none⟩).1.loading = false :=
  (register_validation ⟨"notanemail", "12345678", "Ann"⟩ true
      ⟨none, true, none⟩).1 (Or.inl (by decide))

end Elroi
